import Mathlib

/-!
Shallow embedding of the ClimateCare weather/air-quality/risk pipeline
(server/services/weatherService.ts, airQualityService.ts, scheduler).

Conventions of the embedding:
* JS numbers are modelled as rationals where the code stays in the rational
  operations (+, -, *, /, comparisons, Math.round, toFixed), and as reals
  where the code calls transcendental functions (Math.sqrt, trigonometry).
* Asynchronous network calls are modelled by passing the outcome of each
  call (success value, HTTP failure status, or transport error) as an
  explicit argument; thrown JS exceptions become Except / explicit cases.
* The mutable Map-backed cache becomes an explicit state value threaded
  through the operations, with the current clock passed as an argument.
* JS array indexing with possible out-of-range access becomes List.get?;
  the defaulting idiom (x || d) becomes jsOr below.
-/

namespace ClimateCare

/-! ## Temporal cache (class WeatherCache, weatherService.ts lines 8-37) -/

/-- A cache entry: payload plus the creation timestamp (milliseconds). -/
structure CacheEntry (V : Type) where
  data : V
  timestamp : Nat
deriving Repr, DecidableEq

/-- State of the WeatherCache class: the backing map (modelled as a
function from keys to optional entries) and the ttl in milliseconds. -/
structure WeatherCache (V : Type) where
  entries : String → Option (CacheEntry V)
  ttl : Nat

/-- The constructor WeatherCache(ttlMinutes = 15): empty map,
ttl = ttlMinutes * 60 * 1000 milliseconds. -/
def WeatherCache.mkCache (V : Type) (ttlMinutes : Nat := 15) : WeatherCache V :=
  { entries := fun _ => none, ttl := ttlMinutes * 60 * 1000 }

/-- get(key): absent key or an entry older than ttl yields none; an expired
entry is deleted from the map as a side effect (returned updated state). -/
def WeatherCache.get (c : WeatherCache V) (now : Nat) (key : String) :
    Option V × WeatherCache V :=
  match c.entries key with
  | none => (none, c)
  | some entry =>
    if now - entry.timestamp > c.ttl then
      (none, { c with entries := fun k => if k = key then none else c.entries k })
    else
      (some entry.data, c)

/-- set(key, data): unconditionally store the entry with the current time. -/
def WeatherCache.set (c : WeatherCache V) (now : Nat) (key : String) (v : V) :
    WeatherCache V :=
  { c with entries := fun k => if k = key then some ⟨v, now⟩ else c.entries k }

/-- clear(): drop every entry. -/
def WeatherCache.clearAll (c : WeatherCache V) : WeatherCache V :=
  { c with entries := fun _ => none }

/-- The module-level singleton: new WeatherCache(15). -/
def weatherCache (V : Type) : WeatherCache V := WeatherCache.mkCache V 15

/-! ## Anomaly estimator (calculateTemperatureAnomaly, weatherService.ts 132-145) -/

/-- calculateTemperatureAnomaly(currentTemp, recentTemps): z-score of the
current temperature against the history window. Mirrors the source: the
mean is reduce((a,b) =&gt; a+b, 0)/length, the variance is
reduce((s,t) =&gt; s+(t-mean)^2, 0)/length, stdDev = Math.sqrt(variance). -/
noncomputable def calculateTemperatureAnomaly (currentTemp : ℝ)
    (recentTemps : List ℝ) : ℝ :=
  if recentTemps.length < 3 then 0
  else
    let mean := recentTemps.foldl (fun a b => a + b) 0 / (recentTemps.length : ℝ)
    let variance :=
      recentTemps.foldl (fun sum t => sum + (t - mean) ^ 2) 0 / (recentTemps.length : ℝ)
    let stdDev := Real.sqrt variance
    if stdDev = 0 then 0 else (currentTemp - mean) / stdDev

/-- Population mean, as the spec words it: sum divided by count. -/
noncomputable def popMean (l : List ℝ) : ℝ := l.sum / (l.length : ℝ)

/-- Population standard deviation, as the spec words it: square root of the
mean squared deviation from the population mean. -/
noncomputable def popStdDev (l : List ℝ) : ℝ :=
  Real.sqrt ((l.map (fun t => (t - popMean l) ^ 2)).sum / (l.length : ℝ))

theorem foldl_add_eq_sum (l : List ℝ) (a : ℝ) :
    l.foldl (fun x y => x + y) a = a + l.sum := by
  induction l generalizing a with
  | nil => simp
  | cons x xs ih => simp [List.foldl_cons, ih, List.sum_cons]; ring

theorem foldl_sq_eq_sum (l : List ℝ) (m a : ℝ) :
    l.foldl (fun s t => s + (t - m) ^ 2) a = a + (l.map (fun t => (t - m) ^ 2)).sum := by
  induction l generalizing a with
  | nil => simp
  | cons x xs ih => simp [List.foldl_cons, ih, List.sum_cons]; ring

/-! ## Canonical weather snapshot (interface OpenMeteoResponse) -/

/-- The hourly block of a snapshot. Timestamps are abstracted to hour
indices; all measured values are rationals. -/
structure HourlyBlock where
  time : List Nat
  temperature_2m : List ℚ
  relative_humidity_2m : List ℚ
  wind_speed_10m : List ℚ
  precipitation : List ℚ
deriving Repr, DecidableEq

/-- The daily block of a snapshot. Timestamps are abstracted to day
indices. -/
structure DailyBlock where
  time : List Nat
  temperature_2m_max : List ℚ
  temperature_2m_min : List ℚ
  uv_index_max : List ℚ
  precipitation_sum : List ℚ
deriving Repr, DecidableEq

/-- interface OpenMeteoResponse: latitude, longitude and the two optional
blocks. -/
structure OpenMeteoResponse where
  latitude : ℚ
  longitude : ℚ
  hourly : Option HourlyBlock
  daily : Option DailyBlock
deriving Repr, DecidableEq

/-- WeatherData (shared schema): the per-day inputs handed to the risk
engine. -/
structure WeatherData where
  temperature : ℚ
  humidity : ℚ
  windSpeed : ℚ
  uvIndex : ℚ
  windChill : ℚ
  precipitation : ℚ
deriving Repr, DecidableEq

/-- The JS defaulting idiom (x || d): an absent value (out-of-range array
access yields undefined) and a present value of 0 are both falsy, so both
yield the default. -/
def jsOr (v : Option ℚ) (d : ℚ) : ℚ :=
  match v with
  | none => d
  | some x => if x = 0 then d else x

/-- processWeatherForRisk(data, dayIndex): throws on a snapshot missing
either block, otherwise reads the day values (each defaulted through the
falsy idiom) and computes wind chill as minTemp - windSpeed * 0.5.
currentHourIndex is Math.min(dayIndex * 24, hourly.time.length - 1); with
Nat truncated subtraction an empty hourly.time gives index 0 whose lookup
misses, matching the JS index -1 lookup yielding undefined. -/
def processWeatherForRisk (data : OpenMeteoResponse) (dayIndex : Nat := 0) :
    Except String WeatherData :=
  match data.daily, data.hourly with
  | some daily, some hourly =>
    let maxTemp := jsOr daily.temperature_2m_max[dayIndex]? 25
    let minTemp := jsOr daily.temperature_2m_min[dayIndex]? 15
    let uvIndex := jsOr daily.uv_index_max[dayIndex]? 5
    let currentHourIndex := min (dayIndex * 24) (hourly.time.length - 1)
    let humidity := jsOr hourly.relative_humidity_2m[currentHourIndex]? 50
    let windSpeed := jsOr hourly.wind_speed_10m[currentHourIndex]? 10
    let precipitation := jsOr daily.precipitation_sum[dayIndex]? 0
    let windChill := minTemp - windSpeed * 0.5
    Except.ok ⟨maxTemp, humidity, windSpeed, uvIndex, windChill, precipitation⟩
  | _, _ => Except.error "Invalid weather data structure"

/-- A concrete snapshot whose observed values for day 0 are genuine zeros
(min and max temperature, humidity, wind, UV, precipitation), used to
exercise the falsy-defaulting behavior. -/
def zeroObservationSnapshot : OpenMeteoResponse where
  latitude := 0
  longitude := 0
  hourly := some
    { time := [0]
      temperature_2m := [12]
      relative_humidity_2m := [0]
      wind_speed_10m := [0]
      precipitation := [0] }
  daily := some
    { time := [0]
      temperature_2m_max := [0]
      temperature_2m_min := [0]
      uv_index_max := [0]
      precipitation_sum := [0] }

/-! ## Source client: primary provider and the NASA POWER fallback -/

/-- Outcome of one HTTP call: a parsed body, a non-success status, or a
transport error (the fetch promise rejecting). -/
inductive HttpResult (α : Type) where
  | ok (value : α)
  | badStatus (status : Nat)
  | netError (msg : String)
deriving Repr, DecidableEq

/-- The properties.parameter object of a NASA POWER response, abstracted
over day indices: the source looks values up by the YYYYMMDD key of day i
of the requested range, which we model as a lookup at i (the keys of
distinct days are distinct). A missing key yields none. -/
structure NasaParameterMap where
  T2M : Nat → Option ℚ
  T2M_MAX : Nat → Option ℚ
  T2M_MIN : Nat → Option ℚ
  WS2M : Nat → Option ℚ
  PRECTOT : Nat → Option ℚ
  ALLSKY_SFC_UV_INDEX : Nat → Option ℚ

/-- Math.round: round half toward positive infinity. -/
def jsMathRound (q : ℚ) : ℤ := ⌊q + 1 / 2⌋

/-- Math.round(x * 10) / 10, the one-decimal rounding of the source. -/
def round1 (q : ℚ) : ℚ := (jsMathRound (q * 10) : ℚ) / 10

/-- Number(x.toFixed(3)): three-decimal rounding. On the nonnegative
values it is applied to this agrees with rounding half up. -/
def toFixed3 (q : ℚ) : ℚ := (jsMathRound (q * 1000) : ℚ) / 1000

/-- Day i max temperature: T2M_MAX, else T2M, else the default 25. -/
def nasaTmax (p : NasaParameterMap) (i : Nat) : ℚ :=
  ((p.T2M_MAX i).orElse (fun _ => p.T2M i)).getD 25

/-- Day i min temperature: T2M_MIN, else T2M, else the default 15. -/
def nasaTmin (p : NasaParameterMap) (i : Nat) : ℚ :=
  ((p.T2M_MIN i).orElse (fun _ => p.T2M i)).getD 15

/-- Day i UV index: ALLSKY_SFC_UV_INDEX, else the default 5. -/
def nasaUv (p : NasaParameterMap) (i : Nat) : ℚ :=
  (p.ALLSKY_SFC_UV_INDEX i).getD 5

/-- Day i precipitation total: PRECTOT, else 0. -/
def nasaPrecip (p : NasaParameterMap) (i : Nat) : ℚ :=
  (p.PRECTOT i).getD 0

/-- Day i wind: WS2M, else 0. -/
def nasaWind (p : NasaParameterMap) (i : Nat) : ℚ :=
  (p.WS2M i).getD 0

/-- fetchWeatherDataFromNASA, success path after the response parses: build
daily arrays for the requested day count, then synthesize hourly arrays by
pushing, for every day and each of its 24 hours, the one-decimal-rounded
max/min average temperature, the fixed 50 percent humidity, the day wind
value, and the day precipitation total split evenly over 24 hours rounded
to three decimals. -/
def fetchWeatherDataFromNASA (lat lon : ℚ) (days : Nat)
    (p : NasaParameterMap) : OpenMeteoResponse :=
  { latitude := lat
    longitude := lon
    daily := some
      { time := List.range days
        temperature_2m_max := (List.range days).map (nasaTmax p)
        temperature_2m_min := (List.range days).map (nasaTmin p)
        uv_index_max := (List.range days).map (nasaUv p)
        precipitation_sum := (List.range days).map (nasaPrecip p) }
    hourly := some
      { time := (List.range days).flatMap
          (fun day => (List.range 24).map (fun h => day * 24 + h))
        temperature_2m := (List.range days).flatMap
          (fun day => (List.range 24).map
            (fun _ => round1 ((nasaTmax p day + nasaTmin p day) / 2)))
        relative_humidity_2m := (List.range days).flatMap
          (fun day => (List.range 24).map (fun _ => (50 : ℚ)))
        wind_speed_10m := (List.range days).flatMap
          (fun day => (List.range 24).map (fun _ => nasaWind p day))
        precipitation := (List.range days).flatMap
          (fun day => (List.range 24).map
            (fun _ => toFixed3 (nasaPrecip p day / 24))) } }

/-! ## Cache keys (the template literals at the two call sites) -/

/-- The weather cache key template: weather_(lat)_(lon)_(days), built from
the stringified call parameters. -/
def weatherCacheKey (latS lonS daysS : String) : String :=
  "weather_" ++ latS ++ "_" ++ lonS ++ "_" ++ daysS

/-- The air-quality cache key template: airquality_(lat)_(lon). The radius
parameter of the lookup is not part of the key. -/
def airQualityCacheKey (latS lonS : String) (radius : ℚ) : String :=
  "airquality_" ++ latS ++ "_" ++ lonS

/-- The error the primary path throws: a non-success status becomes
Error(Open-Meteo API error: status); a transport error propagates. -/
def openMeteoOutcome : HttpResult OpenMeteoResponse → Except String OpenMeteoResponse
  | .ok v => Except.ok v
  | .badStatus s => Except.error ("Open-Meteo API error: " ++ toString s)
  | .netError m => Except.error m

/-- The fallback attempt: a successful NASA POWER response is mapped
through fetchWeatherDataFromNASA; a non-success status throws
Error(NASA POWER API error: status); a transport error propagates. -/
def nasaAttempt (lat lon : ℚ) (days : Nat) :
    HttpResult NasaParameterMap → Except String OpenMeteoResponse
  | .ok p => Except.ok (fetchWeatherDataFromNASA lat lon days p)
  | .badStatus s => Except.error ("NASA POWER API error: " ++ toString s)
  | .netError m => Except.error m

/-- fetchWeatherData(lat, lon, days): consult the cache; on a miss try the
primary provider, on its failure try the NASA POWER fallback, caching any
success under the same key; if the fallback also fails, rethrow the
original primary error. numToStr is the JS number-to-string conversion
used by the key template. -/
def fetchWeatherData (numToStr : ℚ → String)
    (cache : WeatherCache OpenMeteoResponse) (now : Nat) (lat lon : ℚ)
    (days : Nat) (primaryResp : HttpResult OpenMeteoResponse)
    (nasaResp : HttpResult NasaParameterMap) :
    Except String OpenMeteoResponse × WeatherCache OpenMeteoResponse :=
  let cacheKey := weatherCacheKey (numToStr lat) (numToStr lon) (toString days)
  let looked := cache.get now cacheKey
  match looked.1 with
  | some cached => (Except.ok cached, looked.2)
  | none =>
    match openMeteoOutcome primaryResp with
    | Except.ok data => (Except.ok data, looked.2.set now cacheKey data)
    | Except.error err =>
      match nasaAttempt lat lon days nasaResp with
      | Except.ok nasaData => (Except.ok nasaData, looked.2.set now cacheKey nasaData)
      | Except.error _ => (Except.error err, looked.2)

/-! ## Air-quality resolver (airQualityService.ts) -/

/-- AirQualityData (shared schema): the three pollutants, the station name
and the distance to it, each possibly absent. -/
structure AirQualityData where
  pm25 : Option ℚ
  pm10 : Option ℚ
  no2 : Option ℚ
  station : Option String
  distance : Option ℝ

/-- A station coordinate pair. -/
structure StationCoordinates where
  latitude : ℝ
  longitude : ℝ

/-- interface OpenAQLocation (the fields the code reads). -/
structure OpenAQLocation where
  id : Int
  name : String
  coordinates : StationCoordinates

/-- interface OpenAQMeasurement (the fields the code reads). -/
structure OpenAQMeasurement where
  parameter : String
  value : ℚ

/-- calculateDistance: the haversine great-circle distance in km, with
Math.atan2(y, x) modelled as the argument of the complex number x + y i. -/
noncomputable def calculateDistance (lat1 lon1 lat2 lon2 : ℝ) : ℝ :=
  let R : ℝ := 6371
  let dLat := (lat2 - lat1) * Real.pi / 180
  let dLon := (lon2 - lon1) * Real.pi / 180
  let a := Real.sin (dLat / 2) * Real.sin (dLat / 2) +
    Real.cos (lat1 * Real.pi / 180) * Real.cos (lat2 * Real.pi / 180) *
    Real.sin (dLon / 2) * Real.sin (dLon / 2)
  let c := 2 * Complex.arg ⟨Real.sqrt (1 - a), Real.sqrt a⟩
  R * c

/-- The nearest-station loop: starting from (results[0], its distance),
replace the best pair whenever a strictly smaller distance is seen. -/
def nearestLoop {α β : Type} [LinearOrder β] (dist : α → β) :
    α × β → List α → α × β
  | best, [] => best
  | (bs, bd), s :: rest =>
    if dist s < bd then nearestLoop dist (s, dist s) rest
    else nearestLoop dist (bs, bd) rest

/-- getFallbackAirQuality: the canonical no-data snapshot. -/
def getFallbackAirQuality : AirQualityData :=
  { pm25 := none, pm10 := none, no2 := none, station := none, distance := none }

/-- First reading of the given pollutant parameter in the measurement list
(the loop keeps the first match per pollutant and ignores later ones). -/
def firstReading (param : String) : List OpenAQMeasurement → Option ℚ
  | [] => none
  | m :: rest => if m.parameter = param then some m.value else firstReading param rest

/-- fetchAirQualityData(lat, lon, radius): consult the cache; on a miss
list stations (any transport error or non-success status or empty listing
degrades to the fallback snapshot), pick the nearest by haversine
distance, then fetch its measurements: a transport error degrades to the
fallback (the surrounding try/catch), while a non-success status keeps
the station and distance with all pollutants absent. Any built result is
cached; the fallback never is. -/
noncomputable def fetchAirQualityData (numToStr : ℚ → String)
    (cache : WeatherCache AirQualityData) (now : Nat) (lat lon : ℚ)
    (radius : ℚ) (stationsResp : HttpResult (List OpenAQLocation))
    (measurementsResp : HttpResult (List OpenAQMeasurement)) :
    AirQualityData × WeatherCache AirQualityData :=
  let cacheKey := airQualityCacheKey (numToStr lat) (numToStr lon) radius
  let looked := cache.get now cacheKey
  match looked.1 with
  | some cached => (cached, looked.2)
  | none =>
    match stationsResp with
    | .netError _ => (getFallbackAirQuality, looked.2)
    | .badStatus _ => (getFallbackAirQuality, looked.2)
    | .ok [] => (getFallbackAirQuality, looked.2)
    | .ok (first :: rest) =>
      let dist := fun (st : OpenAQLocation) =>
        calculateDistance (lat : ℝ) (lon : ℝ)
          st.coordinates.latitude st.coordinates.longitude
      let sel := nearestLoop dist (first, dist first) (first :: rest)
      match measurementsResp with
      | .netError _ => (getFallbackAirQuality, looked.2)
      | .badStatus _ =>
        let result : AirQualityData :=
          { pm25 := none, pm10 := none, no2 := none,
            station := some sel.1.name, distance := some sel.2 }
        (result, looked.2.set now cacheKey result)
      | .ok ms =>
        let result : AirQualityData :=
          { pm25 := firstReading "pm25" ms, pm10 := firstReading "pm10" ms,
            no2 := firstReading "no2" ms,
            station := some sel.1.name, distance := some sel.2 }
        (result, looked.2.set now cacheKey result)

/-- A concrete station used to exercise the resolver. -/
def stAlpha : OpenAQLocation :=
  { id := 1, name := "Alpha", coordinates := { latitude := 0, longitude := 0 } }

/-! ## Batch evaluator / alert generator (scheduler) -/

/-- The risk-engine output fields the scheduler reads (calculateCompleteRisk
also returns a composite score and confidence, which the alert logic never
reads). -/
structure RiskData where
  hsi : ℚ
  csi : ℚ
  aqri : ℚ
deriving Repr, DecidableEq

/-- interface RiskThresholds. -/
structure RiskThresholds where
  hsi : ℚ
  csi : ℚ
  aqri : ℚ
deriving Repr, DecidableEq

/-- The configured thresholds constant. -/
def thresholds : RiskThresholds := { hsi := 70, csi := 60, aqri := 65 }

/-- An alert record as handed to storage.addAlert. -/
structure Alert where
  type : String
  severity : String
  neighborhoods : List String
  message : String
deriving Repr, DecidableEq

/-- The per-run accumulation object highRiskNeighborhoods. -/
structure HighRiskAcc where
  heat : List String
  cold : List String
  air_quality : List String
deriving Repr, DecidableEq

/-- One region of the batch loop, with the per-region pipeline (weather
fetch, processing, air quality, risk engine) abstracted to its outcome: a
RiskData on success, or the caught error when any step of the try block
throws. isPolygon records the geometry-type guard. -/
structure RegionFeature where
  name : String
  isPolygon : Bool
  outcome : Except String RiskData

/-- The region loop: skip non-polygon features, skip (log and continue)
failed regions, and push the region name onto each index list whose
sub-index meets or exceeds that index threshold. -/
def collectHighRisk (th : RiskThresholds) : List RegionFeature → HighRiskAcc
  | [] => { heat := [], cold := [], air_quality := [] }
  | f :: rest =>
    let acc := collectHighRisk th rest
    if f.isPolygon then
      match f.outcome with
      | Except.error _ => acc
      | Except.ok risk =>
        { heat := (if risk.hsi ≥ th.hsi then [f.name] else []) ++ acc.heat
          cold := (if risk.csi ≥ th.csi then [f.name] else []) ++ acc.cold
          air_quality := (if risk.aqri ≥ th.aqri then [f.name] else []) ++ acc.air_quality }
    else acc

/-- Severity from the affected-region count: extreme at 3 or more, else
high. -/
def alertSeverity (count : Nat) : String :=
  if count ≥ 3 then "extreme" else "high"

/-- The heat alert message template. -/
def heatMessage (count : Nat) (th : RiskThresholds) : String :=
  "High heat stress detected in " ++ toString count ++
    " neighborhood(s). Heat Stress Index above " ++ toString th.hsi ++ "."

/-- The cold alert message template. -/
def coldMessage (count : Nat) (th : RiskThresholds) : String :=
  "High cold stress detected in " ++ toString count ++
    " neighborhood(s). Cold Stress Index above " ++ toString th.csi ++ "."

/-- The air-quality alert message template. -/
def airMessage (count : Nat) (th : RiskThresholds) : String :=
  "Poor air quality detected in " ++ toString count ++
    " neighborhood(s). Air Quality Risk Index above " ++ toString th.aqri ++ "."

/-- The alert-decision step: for each index, a non-empty affected list
emits exactly one alert with the count-derived severity. -/
def buildAlerts (th : RiskThresholds) (acc : HighRiskAcc) : List Alert :=
  (if acc.heat.length > 0 then
    [{ type := "heat", severity := alertSeverity acc.heat.length,
       neighborhoods := acc.heat, message := heatMessage acc.heat.length th }]
   else []) ++
  (if acc.cold.length > 0 then
    [{ type := "cold", severity := alertSeverity acc.cold.length,
       neighborhoods := acc.cold, message := coldMessage acc.cold.length th }]
   else []) ++
  (if acc.air_quality.length > 0 then
    [{ type := "air_quality", severity := alertSeverity acc.air_quality.length,
       neighborhoods := acc.air_quality,
       message := airMessage acc.air_quality.length th }]
   else [])

/-- calculateDailyRisks: run the region loop, then the alert decision; the
returned list is the sequence of storage.addAlert calls of the run. -/
def calculateDailyRisks (th : RiskThresholds) (features : List RegionFeature) :
    List Alert :=
  buildAlerts th (collectHighRisk th features)

/-- Spec-side predicate: a processed polygon region whose heat sub-index
met or exceeded the heat threshold. -/
def exceedsHeat (th : RiskThresholds) (f : RegionFeature) : Bool :=
  f.isPolygon &&
    (match f.outcome with
     | Except.ok r => decide (th.hsi ≤ r.hsi)
     | Except.error _ => false)

/-- Spec-side predicate: a processed polygon region whose cold sub-index
met or exceeded the cold threshold. -/
def exceedsCold (th : RiskThresholds) (f : RegionFeature) : Bool :=
  f.isPolygon &&
    (match f.outcome with
     | Except.ok r => decide (th.csi ≤ r.csi)
     | Except.error _ => false)

/-- Spec-side predicate: a processed polygon region whose air-quality
sub-index met or exceeded the air-quality threshold. -/
def exceedsAir (th : RiskThresholds) (f : RegionFeature) : Bool :=
  f.isPolygon &&
    (match f.outcome with
     | Except.ok r => decide (th.aqri ≤ r.aqri)
     | Except.error _ => false)

/-- The three-region example of the spec: HSI scores 72, 50 and 90 against
the configured thresholds (cold and air sub-indices all 0). -/
def exampleRegions : List RegionFeature :=
  [ { name := "Region A", isPolygon := true, outcome := Except.ok ⟨72, 0, 0⟩ },
    { name := "Region B", isPolygon := true, outcome := Except.ok ⟨50, 0, 0⟩ },
    { name := "Region C", isPolygon := true, outcome := Except.ok ⟨90, 0, 0⟩ } ]

/-! ## Theorems for the anomaly estimator and the cache -/

/-- C2: calculateTemperatureAnomaly returns exactly 0 when the history has
fewer than 3 elements, exactly 0 when the population standard deviation of
the history is 0 (in particular for history [20,20,20] with current 25),
and otherwise (current - populationMean) / populationStdDev, with the
population (not sample) mean and standard deviation. -/
theorem anomaly_matches_spec (t : ℝ) (h : List ℝ) :
    calculateTemperatureAnomaly t h =
      (if h.length < 3 then 0
       else if popStdDev h = 0 then 0
       else (t - popMean h) / popStdDev h) ∧
    calculateTemperatureAnomaly 25 [20, 20, 20] = 0 := by
  constructor
  · unfold calculateTemperatureAnomaly popStdDev popMean
    by_cases hl : h.length < 3
    · simp [hl]
    · simp only [hl, if_false]
      rw [foldl_add_eq_sum, foldl_sq_eq_sum]
      simp
  · unfold calculateTemperatureAnomaly
    norm_num

/-- C6: set(k, v) followed by an immediate get(k) returns v; a get that
finds an entry older than the ttl returns absent and removes the entry, so
a further get still misses until a new set; set always overwrites; and the
singleton cache is built with a 15-minute (900000 ms) ttl. -/
theorem cache_roundtrip_and_ttl :
    (∀ (V : Type) (c : WeatherCache V) (now : Nat) (k : String) (v : V),
      (c.set now k v).entries k = some ⟨v, now⟩ ∧
      ((c.set now k v).get now k).1 = some v) ∧
    (∀ (V : Type) (c : WeatherCache V) (now2 : Nat) (k : String) (e : CacheEntry V),
      c.entries k = some e → c.ttl < now2 - e.timestamp →
      (c.get now2 k).1 = none ∧
      ((c.get now2 k).2).entries k = none ∧
      (((c.get now2 k).2).get now2 k).1 = none) ∧
    (∀ (V : Type), (weatherCache V).ttl = 900000) := by
  refine ⟨fun V c now k v => ?_, fun V c now2 k e he hexp => ?_, fun V => rfl⟩
  · constructor
    · simp [WeatherCache.set]
    · simp [WeatherCache.get, WeatherCache.set, Nat.sub_self]
  · have hget : c.get now2 k =
        (none, { c with entries := fun x => if x = k then none else c.entries x }) := by
      simp [WeatherCache.get, he, Nat.lt_iff_add_one_le.mp hexp, hexp]
    refine ⟨by rw [hget], by rw [hget]; simp, ?_⟩
    rw [hget]
    simp [WeatherCache.get]

/-- Witness for C6 at concrete inputs: a round trip on a fresh cache, and
expiry of an entry written at time 0 when read at time 900001. -/
theorem cache_roundtrip_and_ttl_witness :
    (((WeatherCache.mkCache Nat 15).set 5 "k" 42).get 5 "k").1 = some 42 ∧
    ((((WeatherCache.mkCache Nat 15).set 0 "k" 42).get 900001 "k").1 = none) := by
  constructor
  · exact (cache_roundtrip_and_ttl.1 Nat (WeatherCache.mkCache Nat 15) 5 "k" 42).2
  · exact (cache_roundtrip_and_ttl.2.1 Nat ((WeatherCache.mkCache Nat 15).set 0 "k" 42)
      900001 "k" ⟨42, 0⟩ (by simp [WeatherCache.set]) (by decide)).1

/-! ## Theorems for the weather processing and source fallback -/

/-- C10: the per-field defaults of processWeatherForRisk apply not only to
absent fields but also to a genuine observed value of 0, because the
defaulting idiom tests falsiness: a day min temperature of exactly 0 makes
the wind chill come out of the default minTemp 15, an observed humidity of
0 yields 50, and an observed max temperature of 0 yields 25. -/
theorem falsy_zero_defaults :
    (∀ d : ℚ, jsOr (some 0) d = d ∧ jsOr none d = d) ∧
    (∀ (data : OpenMeteoResponse) (dayIndex : Nat) (daily : DailyBlock)
       (hourly : HourlyBlock), data.daily = some daily → data.hourly = some hourly →
      daily.temperature_2m_min[dayIndex]? = some 0 →
      Except.map (fun wd => wd.windChill + wd.windSpeed * 0.5)
        (processWeatherForRisk data dayIndex) = Except.ok 15) ∧
    (∀ (data : OpenMeteoResponse) (dayIndex : Nat) (daily : DailyBlock)
       (hourly : HourlyBlock), data.daily = some daily → data.hourly = some hourly →
      hourly.relative_humidity_2m[min (dayIndex * 24) (hourly.time.length - 1)]? = some 0 →
      Except.map WeatherData.humidity (processWeatherForRisk data dayIndex) =
        Except.ok 50) ∧
    (∀ (data : OpenMeteoResponse) (dayIndex : Nat) (daily : DailyBlock)
       (hourly : HourlyBlock), data.daily = some daily → data.hourly = some hourly →
      daily.temperature_2m_max[dayIndex]? = some 0 →
      Except.map WeatherData.temperature (processWeatherForRisk data dayIndex) =
        Except.ok 25) := by
  refine ⟨fun d => ⟨rfl, rfl⟩, ?_, ?_, ?_⟩ <;>
  · intro data dayIndex daily hourly h1 h2 h3
    simp [processWeatherForRisk, h1, h2, h3, jsOr, Except.map]

/-- Witness for C10: a concrete snapshot whose observed min temperature,
humidity, wind and max temperature are all exactly 0 for day 0. -/
theorem falsy_zero_defaults_witness :
    Except.map (fun wd => wd.windChill + wd.windSpeed * 0.5)
      (processWeatherForRisk zeroObservationSnapshot 0) = Except.ok 15 :=
  falsy_zero_defaults.2.1 _ 0 _ _ rfl rfl rfl

/-- C3: on a cache miss, when the primary provider fails (its outcome is an
error, covering both a transport error and a thrown non-success status) and
the NASA fallback attempt also fails, fetchWeatherData surfaces the original
primary error, not the fallback error. -/
theorem fallback_surfaces_primary_error (numToStr : ℚ → String)
    (cache : WeatherCache OpenMeteoResponse) (now : Nat) (lat lon : ℚ)
    (days : Nat) (primaryResp : HttpResult OpenMeteoResponse)
    (nasaResp : HttpResult NasaParameterMap) (e1 e2 : String)
    (hmiss : (cache.get now
      (weatherCacheKey (numToStr lat) (numToStr lon) (toString days))).1 = none)
    (hp : openMeteoOutcome primaryResp = Except.error e1)
    (hn : nasaAttempt lat lon days nasaResp = Except.error e2) :
    (fetchWeatherData numToStr cache now lat lon days primaryResp nasaResp).1 =
      Except.error e1 := by
  simp [fetchWeatherData, hmiss, hp, hn]

/-- Witness for C3: fresh cache, primary rejected with status 500, fallback
transport failure; the surfaced error is the primary status error. -/
theorem fallback_surfaces_primary_error_witness :
    (fetchWeatherData (fun _ => "0") (WeatherCache.mkCache OpenMeteoResponse 15)
      0 0 0 7 (HttpResult.badStatus 500)
      (HttpResult.netError "getaddrinfo ENOTFOUND")).1 =
      Except.error ("Open-Meteo API error: 500") :=
  fallback_surfaces_primary_error _ _ _ _ _ _ _ _
    ("Open-Meteo API error: 500") "getaddrinfo ENOTFOUND" rfl rfl rfl

theorem flatMap_const24_length {α : Type} (g : Nat → List α)
    (h24 : ∀ d, (g d).length = 24) :
    ∀ n, ((List.range n).flatMap g).length = n * 24 := by
  intro n
  induction n with
  | zero => simp
  | succ m ih =>
    rw [List.range_succ, List.flatMap_append]
    simp [ih, h24]
    omega

theorem flatMap_replicate24_getElem {α : Type} (f : Nat → α) :
    ∀ (n i : Nat), i < n * 24 →
      ((List.range n).flatMap (fun d => List.replicate 24 (f d)))[i]? =
        some (f (i / 24)) := by
  intro n
  induction n with
  | zero => intro i h; omega
  | succ m ih =>
    intro i h
    rw [List.range_succ, List.flatMap_append]
    have hlen : ((List.range m).flatMap (fun d => List.replicate 24 (f d))).length
        = m * 24 :=
      flatMap_const24_length _ (fun d => List.length_replicate 24 (f d)) m
    by_cases hi : i < m * 24
    · rw [List.getElem?_append_left (by rw [hlen]; exact hi)]
      exact ih i hi
    · rw [List.getElem?_append_right (by rw [hlen]; omega)]
      have hdiv : i / 24 = m := by omega
      have hidx : i - ((List.range m).flatMap (fun d => List.replicate 24 (f d))).length < 24 := by
        rw [hlen]; omega
      simp only [List.flatMap_cons, List.flatMap_nil, List.append_nil,
        List.getElem?_replicate, hidx, if_true, hdiv]

theorem flatMap_mapconst_getElem {α : Type} (f : Nat → α) (n i : Nat)
    (h : i < n * 24) :
    ((List.range n).flatMap (fun d => (List.range 24).map (fun _ => f d)))[i]? =
      some (f (i / 24)) := by
  have hfun : (fun d => (List.range 24).map (fun _ => f d)) =
      fun d => List.replicate 24 (f d) := funext fun d => by simp
  rw [hfun]
  exact flatMap_replicate24_getElem f n i h

/-- C4: the NASA fallback snapshot always carries both blocks, with every
daily array of the requested day count and every hourly array of 24 times
that count; each synthesized hourly temperature is the one-decimal-rounded
average of its day max and min, each hourly humidity is the fixed 50, each
hourly wind is the day wind repeated, and each hourly precipitation is the
day total divided by 24 rounded to three decimals. -/
theorem nasa_fallback_shape (lat lon : ℚ) (days : Nat) (p : NasaParameterMap) :
    ∃ hb db,
      (fetchWeatherDataFromNASA lat lon days p).hourly = some hb ∧
      (fetchWeatherDataFromNASA lat lon days p).daily = some db ∧
      db.time.length = days ∧ db.temperature_2m_max.length = days ∧
      db.temperature_2m_min.length = days ∧ db.uv_index_max.length = days ∧
      db.precipitation_sum.length = days ∧
      hb.time.length = days * 24 ∧ hb.temperature_2m.length = days * 24 ∧
      hb.relative_humidity_2m.length = days * 24 ∧
      hb.wind_speed_10m.length = days * 24 ∧ hb.precipitation.length = days * 24 ∧
      (∀ i, i < days * 24 →
        hb.temperature_2m[i]? =
          some (round1 ((nasaTmax p (i / 24) + nasaTmin p (i / 24)) / 2)) ∧
        hb.relative_humidity_2m[i]? = some 50 ∧
        hb.wind_speed_10m[i]? = some (nasaWind p (i / 24)) ∧
        hb.precipitation[i]? = some (toFixed3 (nasaPrecip p (i / 24) / 24))) := by
  refine ⟨_, _, rfl, rfl, by simp, by simp, by simp, by simp, by simp,
    ?_, ?_, ?_, ?_, ?_, ?_⟩
  · exact flatMap_const24_length _ (fun d => by simp) days
  · exact flatMap_const24_length _ (fun d => by simp) days
  · exact flatMap_const24_length _ (fun d => by simp) days
  · exact flatMap_const24_length _ (fun d => by simp) days
  · exact flatMap_const24_length _ (fun d => by simp) days
  · intro i hi
    exact ⟨flatMap_mapconst_getElem _ days i hi, flatMap_mapconst_getElem _ days i hi,
      flatMap_mapconst_getElem _ days i hi, flatMap_mapconst_getElem _ days i hi⟩

/-- Witness for C4: one requested day with an empty parameter map; hour 0
carries the rounded average of the default max 25 and min 15, namely 20. -/
theorem nasa_fallback_shape_witness :
    ∃ hb, (fetchWeatherDataFromNASA 0 0 1
        { T2M := fun _ => none, T2M_MAX := fun _ => none, T2M_MIN := fun _ => none,
          WS2M := fun _ => none, PRECTOT := fun _ => none,
          ALLSKY_SFC_UV_INDEX := fun _ => none }).hourly = some hb ∧
      hb.temperature_2m[0]? = some 20 ∧ hb.relative_humidity_2m[0]? = some 50 := by
  obtain ⟨hb, db, h1, _, _, _, _, _, _, _, _, _, _, _, hv⟩ :=
    nasa_fallback_shape 0 0 1
      { T2M := fun _ => none, T2M_MAX := fun _ => none, T2M_MIN := fun _ => none,
        WS2M := fun _ => none, PRECTOT := fun _ => none,
        ALLSKY_SFC_UV_INDEX := fun _ => none }
  obtain ⟨ht, hh, _, _⟩ := hv 0 (by omega)
  refine ⟨hb, h1, ?_, hh⟩
  rw [ht]
  norm_num [nasaTmax, nasaTmin, round1, jsMathRound]


/-! ## Theorems for the batch evaluator and alert generation -/

theorem mem_ite_singleton {α : Type} {c : Prop} [Decidable c] {x a : α}
    (h : a ∈ (if c then [x] else [])) : a = x := by
  split at h
  · simpa using h
  · simp at h

theorem collectHighRisk_eq (th : RiskThresholds) (fs : List RegionFeature) :
    collectHighRisk th fs =
      { heat := (fs.filter (exceedsHeat th)).map RegionFeature.name,
        cold := (fs.filter (exceedsCold th)).map RegionFeature.name,
        air_quality := (fs.filter (exceedsAir th)).map RegionFeature.name } := by
  induction fs with
  | nil => rfl
  | cons f rest ih =>
    cases hpoly : f.isPolygon with
    | false =>
      simp [collectHighRisk, hpoly, ih, exceedsHeat, exceedsCold, exceedsAir,
        List.filter_cons]
    | true =>
      cases hout : f.outcome with
      | error e =>
        simp [collectHighRisk, hpoly, hout, ih, exceedsHeat, exceedsCold,
          exceedsAir, List.filter_cons]
      | ok r =>
        by_cases h1 : th.hsi ≤ r.hsi <;> by_cases h2 : th.csi ≤ r.csi <;>
          by_cases h3 : th.aqri ≤ r.aqri <;>
          simp [collectHighRisk, hpoly, hout, ih, exceedsHeat, exceedsCold,
            exceedsAir, List.filter_cons, h1, h2, h3, ge_iff_le]


/-- C1: after a batch run processes all regions, each index independently
collects the names of polygon regions whose sub-index met or exceeded its
threshold; a non-empty collection emits exactly one alert for that index,
with severity extreme at 3 or more affected regions and high otherwise; an
empty collection emits no alert, so a run emits at most three alerts with
pairwise distinct indices; with the configured thresholds and HSI scores
72, 50, 90 the run emits one heat alert naming exactly the first and third
regions with severity high. -/
theorem batch_alert_rules :
    (∀ (th : RiskThresholds) (fs : List RegionFeature),
      calculateDailyRisks th fs = buildAlerts th (collectHighRisk th fs) ∧
      collectHighRisk th fs =
        { heat := (fs.filter (exceedsHeat th)).map RegionFeature.name,
          cold := (fs.filter (exceedsCold th)).map RegionFeature.name,
          air_quality := (fs.filter (exceedsAir th)).map RegionFeature.name }) ∧
    (∀ (th : RiskThresholds) (acc : HighRiskAcc),
      (buildAlerts th acc).length ≤ 3 ∧
      List.Pairwise (fun a b => a.type ≠ b.type) (buildAlerts th acc)) ∧
    (∀ (th : RiskThresholds) (acc : HighRiskAcc),
      (acc.heat = [] → ∀ a ∈ buildAlerts th acc, a.type ≠ "heat") ∧
      (acc.heat ≠ [] →
        ({ type := "heat", severity := alertSeverity acc.heat.length,
           neighborhoods := acc.heat,
           message := heatMessage acc.heat.length th } : Alert) ∈ buildAlerts th acc)) ∧
    (∀ (th : RiskThresholds) (acc : HighRiskAcc),
      (acc.cold = [] → ∀ a ∈ buildAlerts th acc, a.type ≠ "cold") ∧
      (acc.cold ≠ [] →
        ({ type := "cold", severity := alertSeverity acc.cold.length,
           neighborhoods := acc.cold,
           message := coldMessage acc.cold.length th } : Alert) ∈ buildAlerts th acc)) ∧
    (∀ (th : RiskThresholds) (acc : HighRiskAcc),
      (acc.air_quality = [] → ∀ a ∈ buildAlerts th acc, a.type ≠ "air_quality") ∧
      (acc.air_quality ≠ [] →
        ({ type := "air_quality", severity := alertSeverity acc.air_quality.length,
           neighborhoods := acc.air_quality,
           message := airMessage acc.air_quality.length th } : Alert) ∈ buildAlerts th acc)) ∧
    (∀ n : Nat, (3 ≤ n → alertSeverity n = "extreme") ∧
      (n < 3 → alertSeverity n = "high")) ∧
    (∃ msg, calculateDailyRisks thresholds exampleRegions =
      [{ type := "heat", severity := "high",
         neighborhoods := ["Region A", "Region C"], message := msg }]) := by
  refine ⟨fun th fs => ⟨rfl, collectHighRisk_eq th fs⟩, fun th acc => ⟨?_, ?_⟩,
    fun th acc => ⟨?_, ?_⟩, fun th acc => ⟨?_, ?_⟩, fun th acc => ⟨?_, ?_⟩,
    fun n => ⟨fun h => by simp [alertSeverity, h], fun h => by
      simp [alertSeverity]; omega⟩, ?_⟩
  · simp only [buildAlerts]
    split_ifs <;> simp
  · simp only [buildAlerts]
    split_ifs <;> simp [List.pairwise_cons]
  · intro h a ha
    simp only [buildAlerts, h, List.length_nil, gt_iff_lt, lt_irrefl, if_false,
      List.nil_append] at ha
    rcases List.mem_append.mp ha with h1 | h1 <;> rw [mem_ite_singleton h1] <;> simp
  · intro h
    have hp : acc.heat.length > 0 := List.length_pos.mpr h
    simp [buildAlerts, hp]
  · intro h a ha
    simp only [buildAlerts, h, List.length_nil, gt_iff_lt, lt_irrefl, if_false,
      List.append_nil] at ha
    rcases List.mem_append.mp ha with h1 | h1 <;> rw [mem_ite_singleton h1] <;> simp
  · intro h
    have hp : acc.cold.length > 0 := List.length_pos.mpr h
    simp [buildAlerts, hp]
  · intro h a ha
    simp only [buildAlerts, h, List.length_nil, gt_iff_lt, lt_irrefl, if_false,
      List.append_nil] at ha
    rcases List.mem_append.mp ha with h1 | h1 <;> rw [mem_ite_singleton h1] <;> simp
  · intro h
    have hp : acc.air_quality.length > 0 := List.length_pos.mpr h
    simp [buildAlerts, hp]
  · exact ⟨heatMessage 2 thresholds, by decide⟩

/-- Witness for C1: a heat alert for a two-region affected set is among the
emitted alerts, and the severity rule gives extreme at five regions. -/
theorem batch_alert_rules_witness :
    ({ type := "heat", severity := alertSeverity 2,
       neighborhoods := ["Region A", "Region C"],
       message := heatMessage 2 thresholds } : Alert) ∈
      buildAlerts thresholds ⟨["Region A", "Region C"], [], []⟩ ∧
    alertSeverity 5 = "extreme" := by
  constructor
  · exact (batch_alert_rules.2.2.1 thresholds
      ⟨["Region A", "Region C"], [], []⟩).2 (by simp)
  · exact (batch_alert_rules.2.2.2.2.2.1 5).1 (by omega)

theorem collect_skips_failed (th : RiskThresholds) (post : List RegionFeature)
    (f : RegionFeature) (e : String) (hf : f.outcome = Except.error e) :
    ∀ pre, collectHighRisk th (pre ++ f :: post) = collectHighRisk th (pre ++ post) := by
  intro pre
  induction pre with
  | nil => simp [collectHighRisk, hf]
  | cons p rest ih =>
    simp only [List.cons_append, collectHighRisk, List.append_eq, ih]

/-- C8: a region whose per-region pipeline throws is caught, excluded from
every index's affected set, and the run's alert output is exactly that of
the same run without the failing region: the remaining regions' alerts are
unaffected. -/
theorem region_failure_isolated (th : RiskThresholds)
    (pre post : List RegionFeature) (nm e : String) (poly : Bool) :
    calculateDailyRisks th
        (pre ++ { name := nm, isPolygon := poly, outcome := Except.error e } :: post) =
      calculateDailyRisks th (pre ++ post) := by
  unfold calculateDailyRisks
  rw [collect_skips_failed th post _ e rfl pre]

/-! ## Theorems for the cache keys -/

theorem append_sep_inj (sep : Char) :
    ∀ (a c b d : List Char), sep ∉ a → sep ∉ c →
      a ++ sep :: b = c ++ sep :: d → a = c ∧ b = d := by
  intro a
  induction a with
  | nil =>
    intro c b d _ hc h
    cases c with
    | nil => simpa using h
    | cons y ys =>
      simp only [List.nil_append, List.cons_append, List.cons.injEq] at h
      obtain ⟨rfl, -⟩ := h
      exact absurd (List.mem_cons_self sep ys) hc
  | cons x xs ih =>
    intro c b d ha hc h
    cases c with
    | nil =>
      simp only [List.cons_append, List.nil_append, List.cons.injEq] at h
      obtain ⟨rfl, -⟩ := h
      exact absurd (List.mem_cons_self x xs) ha
    | cons y ys =>
      simp only [List.cons_append, List.cons.injEq] at h
      obtain ⟨rfl, h2⟩ := h
      have hrec := ih ys b d (fun hm => ha (List.mem_cons_of_mem _ hm))
        (fun hm => hc (List.mem_cons_of_mem _ hm)) h2
      exact ⟨by rw [hrec.1], hrec.2⟩

/-- C9 (amended): the weather key determines its three stringified
components and the air-quality key its two, provided the stringified
coordinates contain no underscore (JS number rendering never does); the
weather prefix and the air-quality prefix never produce equal keys; the
air-quality key does not depend on the radius, so two air-quality lookups
differing only in radius share a key. -/
theorem cache_key_injectivity :
    (∀ a b c a2 b2 c2 : String,
      '_' ∉ a.data → '_' ∉ b.data → '_' ∉ a2.data → '_' ∉ b2.data →
      weatherCacheKey a b c = weatherCacheKey a2 b2 c2 →
      a = a2 ∧ b = b2 ∧ c = c2) ∧
    (∀ (a b a2 b2 : String) (r r2 : ℚ),
      '_' ∉ a.data → '_' ∉ a2.data →
      airQualityCacheKey a b r = airQualityCacheKey a2 b2 r2 →
      a = a2 ∧ b = b2) ∧
    (∀ (a b c a2 b2 : String) (r : ℚ),
      weatherCacheKey a b c ≠ airQualityCacheKey a2 b2 r) ∧
    (∀ (a b : String) (r r2 : ℚ),
      airQualityCacheKey a b r = airQualityCacheKey a b r2) := by
  have hu : "_".data = ['_'] := rfl
  have hw : "weather_".data = ['w', 'e', 'a', 't', 'h', 'e', 'r', '_'] := rfl
  have hq : "airquality_".data =
    ['a', 'i', 'r', 'q', 'u', 'a', 'l', 'i', 't', 'y', '_'] := rfl
  refine ⟨?_, ?_, ?_, fun a b r r2 => rfl⟩
  · intro a b c a2 b2 c2 ha hb ha2 hb2 h
    have hd := congrArg String.data h
    simp only [weatherCacheKey, String.data_append, hw, hu, List.append_assoc,
      List.cons_append, List.nil_append, List.cons.injEq, true_and] at hd
    obtain ⟨h1, h2⟩ := append_sep_inj '_' a.data a2.data _ _ ha ha2 hd
    obtain ⟨h3, h4⟩ := append_sep_inj '_' b.data b2.data _ _ hb hb2 h2
    exact ⟨String.ext h1, String.ext h3, String.ext h4⟩
  · intro a b a2 b2 r r2 ha ha2 h
    have hd := congrArg String.data h
    simp only [airQualityCacheKey, String.data_append, hq, hu, List.append_assoc,
      List.cons_append, List.nil_append, List.cons.injEq, true_and] at hd
    obtain ⟨h1, h2⟩ := append_sep_inj '_' a.data a2.data _ _ ha ha2 hd
    exact ⟨String.ext h1, String.ext h2⟩
  · intro a b c a2 b2 r h
    have hd := congrArg String.data h
    simp only [weatherCacheKey, airQualityCacheKey, String.data_append, hw, hq,
      hu, List.append_assoc, List.cons_append, List.nil_append,
      List.cons.injEq] at hd
    exact absurd hd.1 (by decide)

/-- Witness for C9: concrete stringified queries recovered from their keys. -/
theorem cache_key_injectivity_witness :
    "43.7" = "43.7" ∧ "-79.4" = "-79.4" ∧ "7" = "7" :=
  cache_key_injectivity.1 "43.7" "-79.4" "7" "43.7" "-79.4" "7"
    (by decide) (by decide) (by decide) (by decide) rfl

/-- Counterexample for C9 as stated: two air-quality lookups with distinct
radius parameters produce the same cache key. -/
theorem cache_key_radius_collision :
    airQualityCacheKey "43.7" "-79.4" 50000 = airQualityCacheKey "43.7" "-79.4" 10000 ∧
    (50000 : ℚ) ≠ 10000 := ⟨rfl, by norm_num⟩

/-! ## Theorems for the air-quality resolver -/

theorem nearestLoop_snd {α β : Type} [LinearOrder β] (dist : α → β) :
    ∀ (l : List α) (b : α),
      nearestLoop dist (b, dist b) l =
        ((nearestLoop dist (b, dist b) l).1, dist (nearestLoop dist (b, dist b) l).1) := by
  intro l
  induction l with
  | nil => intro b; rfl
  | cons s rest ih =>
    intro b
    by_cases hlt : dist s < dist b
    · simp only [nearestLoop, hlt, if_true]
      exact ih s
    · simp only [nearestLoop, hlt, if_false]
      exact ih b

theorem nearestLoop_firstMin {α β : Type} [LinearOrder β] (dist : α → β) :
    ∀ (l : List α) (b : α),
      ∃ i : Nat, (b :: l)[i]? = some (nearestLoop dist (b, dist b) l).1 ∧
        (∀ (j : Nat) (y : α), (b :: l)[j]? = some y →
          dist (nearestLoop dist (b, dist b) l).1 ≤ dist y) ∧
        (∀ (j : Nat) (y : α), j < i → (b :: l)[j]? = some y →
          dist (nearestLoop dist (b, dist b) l).1 < dist y) := by
  intro l
  induction l with
  | nil =>
    intro b
    refine ⟨0, rfl, ?_, ?_⟩
    · intro j y hj
      match j, hj with
      | 0, hj =>
        simp only [List.getElem?_cons_zero, Option.some.injEq] at hj
        subst hj
        exact le_refl _
    · intro j y hjlt
      omega
  | cons s rest ih =>
    intro b
    by_cases hlt : dist s < dist b
    · simp only [nearestLoop, hlt, if_true]
      obtain ⟨i, hi, hmin, hstrict⟩ := ih s
      have hrs : dist (nearestLoop dist (s, dist s) rest).1 ≤ dist s :=
        hmin 0 s (by simp)
      refine ⟨i + 1, by simpa using hi, ?_, ?_⟩
      · intro j y hj
        match j, hj with
        | 0, hj =>
          simp only [List.getElem?_cons_zero, Option.some.injEq] at hj
          subst hj
          exact le_of_lt (lt_of_le_of_lt hrs hlt)
        | j + 1, hj =>
          exact hmin j y (by simpa using hj)
      · intro j y hjlt hj
        match j, hj with
        | 0, hj =>
          simp only [List.getElem?_cons_zero, Option.some.injEq] at hj
          subst hj
          exact lt_of_le_of_lt hrs hlt
        | j + 1, hj =>
          exact hstrict j y (by omega) (by simpa using hj)
    · simp only [nearestLoop, hlt, if_false]
      have hbs : dist b ≤ dist s := not_lt.mp hlt
      obtain ⟨i, hi, hmin, hstrict⟩ := ih b
      have hrb : dist (nearestLoop dist (b, dist b) rest).1 ≤ dist b :=
        hmin 0 b (by simp)
      match i, hi with
      | 0, hi =>
        refine ⟨0, by simpa using hi, ?_, ?_⟩
        · intro j y hj
          match j, hj with
          | 0, hj =>
            simp only [List.getElem?_cons_zero, Option.some.injEq] at hj
            subst hj
            exact hrb
          | 1, hj =>
            simp only [List.getElem?_cons_succ, List.getElem?_cons_zero,
              Option.some.injEq] at hj
            subst hj
            exact le_trans hrb hbs
          | j + 2, hj =>
            exact hmin (j + 1) y (by simpa using hj)
        · intro j y hjlt
          omega
      | i + 1, hi =>
        refine ⟨i + 2, by simpa using hi, ?_, ?_⟩
        · intro j y hj
          match j, hj with
          | 0, hj =>
            simp only [List.getElem?_cons_zero, Option.some.injEq] at hj
            subst hj
            exact hrb
          | 1, hj =>
            simp only [List.getElem?_cons_succ, List.getElem?_cons_zero,
              Option.some.injEq] at hj
            subst hj
            exact le_trans hrb hbs
          | j + 2, hj =>
            exact hmin (j + 1) y (by simpa using hj)
        · intro j y hjlt hj
          have hstr0 : dist (nearestLoop dist (b, dist b) rest).1 < dist b :=
            hstrict 0 b (by omega) (by simp)
          match j, hj with
          | 0, hj =>
            simp only [List.getElem?_cons_zero, Option.some.injEq] at hj
            subst hj
            exact hstr0
          | 1, hj =>
            simp only [List.getElem?_cons_succ, List.getElem?_cons_zero,
              Option.some.injEq] at hj
            subst hj
            exact lt_of_lt_of_le hstr0 hbs
          | j + 2, hj =>
            exact hstrict (j + 1) y (by omega) (by simpa using hj)

/-- C7: the selection loop returns a candidate at minimal distance, and at
equal minimal distances it keeps the first-encountered candidate (every
candidate before the selected index is strictly farther); on a cache miss
with a non-empty listing, fetchAirQualityData returns exactly the loop's
selection over the haversine distances to the query point, minimal over
the listing; and over candidates at distances [12, 3, 47] the one at
distance 3 is selected. -/
theorem nearest_station_selected :
    (∀ {α β : Type} [inst : LinearOrder β] (dist : α → β) (b : α) (l : List α),
      ∃ i : Nat, (b :: l)[i]? = some (nearestLoop dist (b, dist b) l).1 ∧
        (∀ (j : Nat) (y : α), (b :: l)[j]? = some y →
          dist (nearestLoop dist (b, dist b) l).1 ≤ dist y) ∧
        (∀ (j : Nat) (y : α), j < i → (b :: l)[j]? = some y →
          dist (nearestLoop dist (b, dist b) l).1 < dist y)) ∧
    (∀ (numToStr : ℚ → String) (cache : WeatherCache AirQualityData) (now : Nat)
       (lat lon radius : ℚ) (first : OpenAQLocation) (rest : List OpenAQLocation)
       (ms : List OpenAQMeasurement) (dist : OpenAQLocation → ℝ),
      dist = (fun st : OpenAQLocation => calculateDistance (lat : ℝ) (lon : ℝ)
        st.coordinates.latitude st.coordinates.longitude) →
      (cache.get now (airQualityCacheKey (numToStr lat) (numToStr lon) radius)).1 = none →
      (fetchAirQualityData numToStr cache now lat lon radius
          (HttpResult.ok (first :: rest)) (HttpResult.ok ms)).1.station =
        some ((nearestLoop dist (first, dist first) (first :: rest)).1.name) ∧
      (∀ st ∈ first :: rest,
        dist (nearestLoop dist (first, dist first) (first :: rest)).1 ≤ dist st)) ∧
    ((nearestLoop (fun q : ℚ => q) (12, 12) [12, 3, 47]).1 = 3) := by
  refine ⟨fun dist b l => nearestLoop_firstMin dist l b, ?_, ?_⟩
  · intro numToStr cache now lat lon radius first rest ms dist hdist hmiss
    constructor
    · subst hdist
      simp [fetchAirQualityData, hmiss]
    · intro st hst
      obtain ⟨i, hi, hmin, hstrict⟩ := nearestLoop_firstMin dist (first :: rest) first
      obtain ⟨j, hj⟩ := List.mem_iff_getElem?.mp hst
      exact hmin (j + 1) st (by simpa using hj)
  · norm_num [nearestLoop]

/-- Witness for C7: the loop's selection over [12, 3] starting at 12 is at
distance at most 3 (the minimality clause applied at the listed index 1). -/
theorem nearest_station_selected_witness :
    (nearestLoop (fun q : ℚ => q) (12, 12) [3]).1 ≤ 3 := by
  obtain ⟨i, hi, hmin, hstrict⟩ := nearest_station_selected.1 (fun q : ℚ => q) 12 [3]
  exact hmin 1 3 (by decide)

/-- C5 (amended): fetchAirQualityData never raises (it is total into a
plain snapshot); a transport error or non-success status of the station
listing, an empty listing, or a transport error of the measurement fetch
all degrade to the canonical no-data snapshot with every field absent; a
non-success status of the measurement fetch, however, keeps the selected
station name and distance and only leaves the three pollutants absent. -/
theorem airquality_failure_handling :
    (∀ (numToStr : ℚ → String) (cache : WeatherCache AirQualityData) (now : Nat)
       (lat lon radius : ℚ) (m : String) (mr : HttpResult (List OpenAQMeasurement)),
      (cache.get now (airQualityCacheKey (numToStr lat) (numToStr lon) radius)).1 = none →
      (fetchAirQualityData numToStr cache now lat lon radius
        (HttpResult.netError m) mr).1 = getFallbackAirQuality) ∧
    (∀ (numToStr : ℚ → String) (cache : WeatherCache AirQualityData) (now : Nat)
       (lat lon radius : ℚ) (status : Nat) (mr : HttpResult (List OpenAQMeasurement)),
      (cache.get now (airQualityCacheKey (numToStr lat) (numToStr lon) radius)).1 = none →
      (fetchAirQualityData numToStr cache now lat lon radius
        (HttpResult.badStatus status) mr).1 = getFallbackAirQuality) ∧
    (∀ (numToStr : ℚ → String) (cache : WeatherCache AirQualityData) (now : Nat)
       (lat lon radius : ℚ) (mr : HttpResult (List OpenAQMeasurement)),
      (cache.get now (airQualityCacheKey (numToStr lat) (numToStr lon) radius)).1 = none →
      (fetchAirQualityData numToStr cache now lat lon radius
        (HttpResult.ok []) mr).1 = getFallbackAirQuality) ∧
    (∀ (numToStr : ℚ → String) (cache : WeatherCache AirQualityData) (now : Nat)
       (lat lon radius : ℚ) (first : OpenAQLocation) (rest : List OpenAQLocation)
       (m : String),
      (cache.get now (airQualityCacheKey (numToStr lat) (numToStr lon) radius)).1 = none →
      (fetchAirQualityData numToStr cache now lat lon radius
        (HttpResult.ok (first :: rest)) (HttpResult.netError m)).1 =
        getFallbackAirQuality) ∧
    (∀ (numToStr : ℚ → String) (cache : WeatherCache AirQualityData) (now : Nat)
       (lat lon radius : ℚ) (first : OpenAQLocation) (rest : List OpenAQLocation)
       (status : Nat) (dist : OpenAQLocation → ℝ),
      dist = (fun st : OpenAQLocation => calculateDistance (lat : ℝ) (lon : ℝ)
        st.coordinates.latitude st.coordinates.longitude) →
      (cache.get now (airQualityCacheKey (numToStr lat) (numToStr lon) radius)).1 = none →
      (fetchAirQualityData numToStr cache now lat lon radius
        (HttpResult.ok (first :: rest)) (HttpResult.badStatus status)).1 =
        { pm25 := none, pm10 := none, no2 := none,
          station := some ((nearestLoop dist (first, dist first) (first :: rest)).1.name),
          distance := some ((nearestLoop dist (first, dist first) (first :: rest)).2) }) ∧
    (getFallbackAirQuality.pm25 = none ∧ getFallbackAirQuality.pm10 = none ∧
     getFallbackAirQuality.no2 = none ∧ getFallbackAirQuality.station = none ∧
     getFallbackAirQuality.distance = none) := by
  refine ⟨?_, ?_, ?_, ?_, ?_, rfl, rfl, rfl, rfl, rfl⟩
  · intro numToStr cache now lat lon radius m mr hmiss
    simp [fetchAirQualityData, hmiss]
  · intro numToStr cache now lat lon radius status mr hmiss
    simp [fetchAirQualityData, hmiss]
  · intro numToStr cache now lat lon radius mr hmiss
    simp [fetchAirQualityData, hmiss]
  · intro numToStr cache now lat lon radius first rest m hmiss
    simp [fetchAirQualityData, hmiss]
  · intro numToStr cache now lat lon radius first rest status dist hdist hmiss
    subst hdist
    simp [fetchAirQualityData, hmiss]

/-- Witness for C5: a transport error on the station listing against a
fresh cache yields the all-absent snapshot. -/
theorem airquality_failure_handling_witness :
    (fetchAirQualityData (fun _ => "0") (WeatherCache.mkCache AirQualityData 15)
      0 0 0 50000 (HttpResult.netError "boom") (HttpResult.ok [])).1 =
      getFallbackAirQuality :=
  airquality_failure_handling.1 _ _ 0 0 0 50000 "boom" _ rfl

/-- Counterexample for C5 as stated: a non-success status from the
measurements request does not produce the canonical no-data snapshot; the
station name (and distance) survive. -/
theorem airquality_status_keeps_station :
    (fetchAirQualityData (fun _ => "0") (WeatherCache.mkCache AirQualityData 15)
      0 0 0 50000 (HttpResult.ok [stAlpha]) (HttpResult.badStatus 500)).1.station =
      some "Alpha" := by
  simp [fetchAirQualityData, WeatherCache.get, WeatherCache.mkCache, nearestLoop,
    stAlpha]

end ClimateCare
